import Mathlib

/-!
# Verification of `dkb2homebank.py`

A shallow embedding of the format-detection and record-projection pipeline of
`dkb2homebank.py`, which converts DKB online-banking CSV exports to the CSV
layout that Homebank imports.  Pure string/record manipulation in the source is
translated to executable Lean functions; Python exceptions become an explicit
error type threaded through `Except`.  File I/O and encoding resolution are the
boundary of the embedding: functions receive decoded lines / fields as inputs,
exactly the data the corresponding Python functions extract from the file.
-/

namespace Dkb2Homebank

/-- Python exceptions that the pipeline can raise or that its design documents
name.  `valueError` is the builtin `ValueError` (raised by
`datetime.strptime` on unparseable dates and by `find_transaction_lines` when
no header line is present).  `invalidInputException` is the class
`InvalidInputException` defined at the top of `dkb2homebank.py` (it is declared
there but never raised).  `conversionError` is modelled from the spec: the
design document names a `ConversionError` kind for bad dates, but no class of
that name exists anywhere in the source; the constructor exists only so that
statements about that claimed kind can be written down and compared with what
the code actually raises. -/
inductive PyError where
  | valueError (msg : String)
  | invalidInputException (msg : String)
  | conversionError (msg : String)
  deriving DecidableEq, Repr

/-- `True` exactly on the `invalidInputException` constructor. -/
def PyError.isInvalidInput : PyError → Bool
  | .invalidInputException _ => true
  | _ => false

/-- `True` exactly on the `conversionError` constructor. -/
def PyError.isConversionError : PyError → Bool
  | .conversionError _ => true
  | _ => false

/-- Does an `Except PyError` result hold an `InvalidInputException`? -/
def errIsInvalidInput {α : Type} : Except PyError α → Bool
  | .error e => e.isInvalidInput
  | .ok _ => false

/-- Does an `Except PyError` result hold a `ConversionError`? -/
def errIsConversionError {α : Type} : Except PyError α → Bool
  | .error e => e.isConversionError
  | .ok _ => false

/-- The enum `CsvFileTypes` of `dkb2homebank.py` (lines 76–81). -/
inductive CsvFileTypes where
  | UNKNOWN
  | CASH
  | OLD_VISA
  | GIRO
  | NEW_VISA
  deriving DecidableEq, Repr

/-- `homebank_field_names` (lines 67–74): the fixed eight-column output
schema, in order. -/
def homebank_field_names : List String :=
  ["date", "paymode", "info", "payee", "memo", "amount", "category", "tags"]

/-- Python's `str.startswith`: the pattern is a character-wise prefix of the
string. -/
def pyStartsWith (s pre : String) : Bool := pre.data.isPrefixOf s.data

/-- `detect_csv_format` (lines 83–105), applied to the already decoded first
line of the input file.  The Python function first resolves the encoding
(utf-8-sig, falling back to iso-8859-1) and reads the first line; that I/O
part is the boundary of the embedding, so the function here receives the
decoded first line.  The `header is None` branch of the source is dead code
(`file.readline()` returns a string, never `None`) and is not represented.
The four prefix checks appear in exactly the source's order. -/
def detect_csv_format (header : String) : CsvFileTypes :=
  if pyStartsWith header "\"Kreditkarte:\"" then CsvFileTypes.OLD_VISA
  else if pyStartsWith header "\"Kontonummer:\"" then CsvFileTypes.CASH
  else if pyStartsWith header "\"Girokonto\"" then CsvFileTypes.GIRO
  else if pyStartsWith header "\"Karte\"" then CsvFileTypes.NEW_VISA
  else CsvFileTypes.UNKNOWN

/-- The header heuristic of `find_transaction_lines` (line 228): a line is the
CSV header line when it contains both `"Betrag"` and `"Wertstellung"` as
substrings. -/
def hasHeaderMarks (line : String) : Bool :=
  decide ("Betrag".data <:+: line.data) && decide ("Wertstellung".data <:+: line.data)

/-- `find_transaction_lines` (lines 216–232), applied to the list of lines of
the file.  The Python function scans `lines` keeping a counter `i` that is one
ahead of the current position and returns `lines[i:]` at the first line
containing both header marks, i.e. the lines strictly after the first match;
the recursion here returns exactly that suffix.  If no line matches it raises
`ValueError("Can't convert CSV file without header line")` (line 232). -/
def find_transaction_lines : List String → Except PyError (List String)
  | [] => .error (.valueError "Can\x27t convert CSV file without header line")
  | l :: rest =>
      if hasHeaderMarks l then .ok rest else find_transaction_lines rest

/-! ## Date transforms

`convert_date` (lines 235–238) is `datetime.strptime(s, "%d.%m.%Y")` followed
by `strftime("%d-%m-%Y")`; `convert_short_date` (lines 240–243) is the same
with `"%d.%m.%y"` on the parsing side.  CPython's `_strptime` compiles the
format into a regex — `%d` becomes `3[01]|[12]\d|0[1-9]|[1-9]`, `%m` becomes
`1[0-2]|0[1-9]|[1-9]`, `%Y` becomes `\d\d\d\d`, `%y` becomes `\d\d`, a literal
`.` matches itself — and requires the regex to consume the whole input.
Because neither day nor month alternatives can contain a dot, matching the
sequential regex against the whole string is equivalent to splitting the
string at the dots into exactly three parts and requiring each part, in its
entirety, to match the corresponding component regex; the definitions below
take that form.  A two-digit part matches the `%d` alternatives exactly when
its value is 1–31, and the `%m` alternatives exactly when its value is 1–12.
After the regex match, `datetime(year, month, day)` validates the year range
(`MINYEAR = 1`) and the day against the month length; `%y` years are widened
by `_strptime`'s century rule (`+2000` for 0–68, `+1900` for 69–99).  On
output, `%d` and `%m` are zero-padded to two digits and `%Y` to four. -/

/-- The decimal digit character for `n < 10`. -/
def digitOf (n : Nat) : Char := Char.ofNat (48 + n)

/-- Two-digit zero-padded decimal rendering (for `n < 100`), as characters. -/
def pad2c (n : Nat) : List Char := [digitOf (n / 10), digitOf (n % 10)]

/-- Four-digit zero-padded decimal rendering (for `n < 10000`), as
characters. -/
def pad4c (n : Nat) : List Char :=
  [digitOf (n / 1000), digitOf (n / 100 % 10), digitOf (n / 10 % 10), digitOf (n % 10)]

/-- Split a character list at every `'.'` (the literal dots of the
`"%d.%m.%Y"` format). -/
def splitDots : List Char → List (List Char)
  | [] => [[]]
  | c :: cs =>
      if c = '.' then [] :: splitDots cs
      else
        match splitDots cs with
        | [] => [[c]]
        | p :: ps => (c :: p) :: ps

/-- The numeric value of a digit character. -/
def digitVal (c : Char) : Nat := c.toNat - 48

/-- Whole-part match of `%d`'s regex `3[01]|[12]\d|0[1-9]|[1-9]`: one digit
1–9, or two digits whose value is 1–31. -/
def parseDayPart : List Char → Option Nat
  | [c] => if 49 ≤ c.toNat ∧ c.toNat ≤ 57 then some (digitVal c) else none
  | [c1, c2] =>
      if c1.isDigit ∧ c2.isDigit then
        let v := 10 * digitVal c1 + digitVal c2
        if 1 ≤ v ∧ v ≤ 31 then some v else none
      else none
  | _ => none

/-- Whole-part match of `%m`'s regex `1[0-2]|0[1-9]|[1-9]`: one digit 1–9, or
two digits whose value is 1–12. -/
def parseMonthPart : List Char → Option Nat
  | [c] => if 49 ≤ c.toNat ∧ c.toNat ≤ 57 then some (digitVal c) else none
  | [c1, c2] =>
      if c1.isDigit ∧ c2.isDigit then
        let v := 10 * digitVal c1 + digitVal c2
        if 1 ≤ v ∧ v ≤ 12 then some v else none
      else none
  | _ => none

/-- Whole-part match of `%Y`'s regex `\d\d\d\d`: exactly four digits. -/
def parseYear4Part : List Char → Option Nat
  | [c1, c2, c3, c4] =>
      if c1.isDigit ∧ c2.isDigit ∧ c3.isDigit ∧ c4.isDigit then
        some (1000 * digitVal c1 + 100 * digitVal c2 + 10 * digitVal c3 + digitVal c4)
      else none
  | _ => none

/-- Whole-part match of `%y`'s regex `\d\d`: exactly two digits. -/
def parseYear2Part : List Char → Option Nat
  | [c1, c2] =>
      if c1.isDigit ∧ c2.isDigit then some (10 * digitVal c1 + digitVal c2)
      else none
  | _ => none

/-- `_strptime`'s century rule for `%y`: 0–68 ↦ 2000–2068, 69–99 ↦
1969–1999. -/
def expandYear (y : Nat) : Nat := if y ≤ 68 then 2000 + y else 1900 + y

/-- The Gregorian leap-year rule used by `datetime`. -/
def isLeap (y : Nat) : Bool := y % 4 = 0 && (y % 100 ≠ 0 || y % 400 = 0)

/-- `datetime`'s `_days_in_month` (month assumed 1–12). -/
def daysInMonth (y m : Nat) : Nat :=
  if m = 2 then (if isLeap y then 29 else 28)
  else if m = 4 ∨ m = 6 ∨ m = 9 ∨ m = 11 then 30 else 31

/-- Parse `"%d.%m.%Y"` against the whole character list: three dot-separated
parts matching day, month and four-digit year. -/
def parseDotDate (cs : List Char) : Option (Nat × Nat × Nat) :=
  match splitDots cs with
  | [p1, p2, p3] =>
      match parseDayPart p1, parseMonthPart p2, parseYear4Part p3 with
      | some d, some m, some y => some (d, m, y)
      | _, _, _ => none
  | _ => none

/-- Parse `"%d.%m.%y"` against the whole character list; the two-digit year is
widened with the century rule. -/
def parseDotDateShort (cs : List Char) : Option (Nat × Nat × Nat) :=
  match splitDots cs with
  | [p1, p2, p3] =>
      match parseDayPart p1, parseMonthPart p2, parseYear2Part p3 with
      | some d, some m, some y => some (d, m, expandYear y)
      | _, _, _ => none
  | _ => none

/-- The `datetime(year, month, day)` range checks (year first, then day; the
month is already 1–12 after the regex), followed by
`strftime("%d-%m-%Y")`. -/
def formatCheckedDate (d m y : Nat) : Except PyError String :=
  if y < 1 then .error (.valueError "year 0 is out of range")
  else if daysInMonth y m < d then .error (.valueError "day is out of range for month")
  else .ok (String.mk (pad2c d ++ '-' :: pad2c m ++ '-' :: pad4c y))

/-- `convert_date` (lines 235–238): `strptime` with `"%d.%m.%Y"`, then
`strftime("%d-%m-%Y")`; a failed parse raises `ValueError`. -/
def convert_date (s : String) : Except PyError String :=
  match parseDotDate s.data with
  | none => .error (.valueError ("time data " ++ s ++ " does not match format %d.%m.%Y"))
  | some (d, m, y) => formatCheckedDate d m y

/-- `convert_short_date` (lines 240–243): `strptime` with `"%d.%m.%y"`, then
`strftime("%d-%m-%Y")`; a failed parse raises `ValueError`. -/
def convert_short_date (s : String) : Except PyError String :=
  match parseDotDateShort s.data with
  | none => .error (.valueError ("time data " ++ s ++ " does not match format %d.%m.%y"))
  | some (d, m, y) => formatCheckedDate d m y

/-- A `dd.mm.yyyy`-shaped date string with the given components and the given
separator: two-digit day and month, four-digit year. -/
def dateStrDMY (d m y : Nat) (sep : Char) : String :=
  String.mk (pad2c d ++ sep :: pad2c m ++ sep :: pad4c y)

/-- A `dd.mm.yy`-shaped date string: two-digit day, month and year. -/
def dateStrShort (d m y : Nat) : String :=
  String.mk (pad2c d ++ '.' :: pad2c m ++ '.' :: pad2c y)

/-! ## Currency stripping -/

/-- Python's `str.strip()` whitespace test, on the ASCII whitespace
characters (space, tab, newline, carriage return, vertical tab, form feed).
`str.strip()` also strips the exotic Unicode space code points; none of the
characters the claims quantify over (digits, `.`, `,`, `-`, `€`) is among
them, so the restriction to ASCII whitespace is invisible to every statement
below. -/
def pyIsSpace (c : Char) : Bool :=
  c = ' ' || c = '\t' || c = '\n' || c = '\r' || c = '\x0b' || c = '\x0c'

/-- Python's `str.strip()` on a character list: drop whitespace from both
ends. -/
def pyStrip (l : List Char) : List Char :=
  ((l.dropWhile pyIsSpace).reverse.dropWhile pyIsSpace).reverse

/-- `strip_currency` (lines 189–190): `currency_string.replace("€", "").strip()`.
`replace` with a one-character pattern and empty replacement deletes every
occurrence of that character, i.e. filters it out. -/
def strip_currency (s : String) : String :=
  String.mk (pyStrip (s.data.filter (fun c => c ≠ '€')))

/-! ## Source schemas and records -/

/-- `cash_field_names` (lines 27–37). -/
def cash_field_names : List String :=
  ["buchungstag", "wertstellung", "buchungstext", "beguenstigter", "verwendungszweck",
   "kontonummer", "blz", "betrag", "glaeubigerID", "mandatsreferenz", "kundenreferenz"]

/-- `old_visa_field_names` (lines 39–44). -/
def old_visa_field_names : List String :=
  ["abgerechnet", "wertstellung", "belegdatum", "beschreibung", "betrag",
   "urspruenglicherBetrag"]

/-- `new_visa_field_names` (lines 46–52). -/
def new_visa_field_names : List String :=
  ["belegdatum", "wertstellung", "status", "beschreibung", "umsatztyp", "betrag",
   "fremdwaehrungsbetrag"]

/-- `giro_field_names` (lines 54–65).  The starred names appear verbatim in
the source (`zahlungspflichtige*r`, `zahlungsempfänger*in`,
`gläubiger-id`). -/
def giro_field_names : List String :=
  ["buchungsdatum", "wertstellung", "status", "zahlungspflichtige*r",
   "zahlungsempfänger*in", "verwendungszweck", "umsatztyp", "IBAN", "betrag",
   "gläubiger-id", "mandatsreferenz", "kundenreferenz"]

/-- A parsed CASH row: one value per name of `cash_field_names`. -/
structure CashRow where
  buchungstag : String
  wertstellung : String
  buchungstext : String
  beguenstigter : String
  verwendungszweck : String
  kontonummer : String
  blz : String
  betrag : String
  glaeubigerID : String
  mandatsreferenz : String
  kundenreferenz : String
  deriving DecidableEq, Repr

/-- A parsed OLD_VISA row: one value per name of `old_visa_field_names`. -/
structure OldVisaRow where
  abgerechnet : String
  wertstellung : String
  belegdatum : String
  beschreibung : String
  betrag : String
  urspruenglicherBetrag : String
  deriving DecidableEq, Repr

/-- A parsed NEW_VISA row: one value per name of `new_visa_field_names`. -/
structure NewVisaRow where
  belegdatum : String
  wertstellung : String
  status : String
  beschreibung : String
  umsatztyp : String
  betrag : String
  fremdwaehrungsbetrag : String
  deriving DecidableEq, Repr

/-- A parsed GIRO row: one value per name of `giro_field_names`.  The starred
source names `zahlungspflichtige*r` and `zahlungsempfänger*in` and the
hyphenated `gläubiger-id` are not legal Lean identifiers and are transcribed
as `zahlungspflichtigeR`, `zahlungsempfaengerIn`, `glaeubigerId`. -/
structure GiroRow where
  buchungsdatum : String
  wertstellung : String
  status : String
  zahlungspflichtigeR : String
  zahlungsempfaengerIn : String
  verwendungszweck : String
  umsatztyp : String
  IBAN : String
  betrag : String
  glaeubigerId : String
  mandatsreferenz : String
  kundenreferenz : String
  deriving DecidableEq, Repr

/-! ## Format-specific projectors

Each `convert_*` function in the source opens the input, iterates over the
parsed rows and calls `writer.writerow` with a dict literal.  `DictWriter`
with `fieldnames=homebank_field_names` emits the dict's values in that fixed
field order, rendering `None` as the empty string and the integer paymode in
decimal.  The per-row body of each loop is modelled as a `convert_*_row`
function returning the written row as (field name, written value) pairs in
output order; a date-conversion `ValueError` propagates as `Except.error`,
aborting the row exactly as the uncaught Python exception aborts the loop. -/

/-- The row written by the loop body of `convert_cash` (lines 129–140). -/
def convert_cash_row (row : CashRow) : Except PyError (List (String × String)) :=
  (convert_date row.buchungstag).map fun d =>
    [("date", d), ("paymode", "8"), ("info", ""), ("payee", row.beguenstigter),
     ("memo", row.verwendungszweck), ("amount", row.betrag), ("category", ""),
     ("tags", "")]

/-- The row written by the loop body of `convert_old_visa` (lines 152–163). -/
def convert_old_visa_row (row : OldVisaRow) : Except PyError (List (String × String)) :=
  (convert_date row.wertstellung).map fun d =>
    [("date", d), ("paymode", "1"), ("info", ""), ("payee", ""),
     ("memo", row.beschreibung), ("amount", row.betrag), ("category", ""),
     ("tags", "")]

/-- The row written by the loop body of `convert_new_visa` (lines 176–187). -/
def convert_new_visa_row (row : NewVisaRow) : Except PyError (List (String × String)) :=
  (convert_short_date row.wertstellung).map fun d =>
    [("date", d), ("paymode", "1"), ("info", ""), ("payee", ""),
     ("memo", row.beschreibung), ("amount", strip_currency row.betrag),
     ("category", ""), ("tags", "")]

/-- The row written by the loop body of `convert_giro` (lines 203–214); the
payee is the f-string `f"{row['zahlungsempfänger*in']} {row['IBAN']}"`. -/
def convert_giro_row (row : GiroRow) : Except PyError (List (String × String)) :=
  (convert_short_date row.buchungsdatum).map fun d =>
    [("date", d), ("paymode", "8"), ("info", ""),
     ("payee", row.zahlungsempfaengerIn ++ " " ++ row.IBAN),
     ("memo", row.verwendungszweck), ("amount", strip_currency row.betrag),
     ("category", ""), ("tags", "")]

/-- The whole `for row in reader` loop of `convert_cash`: rows are converted
in order and the first raised exception aborts the remainder, exactly as
`mapM` in `Except` stops at the first error. -/
def convert_cash_rows (rows : List CashRow) : Except PyError (List (List (String × String))) :=
  rows.mapM convert_cash_row

/-! ## Record parsing (`_open_csv`, lines 113–117)

`_open_csv` builds a `csv.DictReader` over `find_transaction_lines(file)`.
The dialect it passes is **not** the registered fixed `"dkb"` dialect (that
one is passed only to the `DictWriter`s): it is
`csv.Sniffer().sniff(file.read(1024))`, the standard library's heuristic that
picks a delimiter (candidates include `','`, `'\t'`, `';'`, `' '`, `':'`) and
a quote character from the first kibibyte of the file.  The sniffer is
library code outside this repository, so its result is an explicit input of
the model. -/

/-- A csv dialect as the reader consumes it: delimiter and quote character.
(The source's `DKB` dialect class additionally fixes `doublequote = True`,
modelled inside `parseFieldsAux`, and a line terminator and quoting mode that
only affect writing.) -/
structure PyDialect where
  delimiter : Char
  quotechar : Char
  deriving DecidableEq, Repr

/-- The registered `"dkb"` dialect (lines 10–16, 25): `;` and `"`. -/
def dkbDialect : PyDialect := ⟨';', '"'⟩

/-- One-line csv field split, the reader side of the `csv` module for a
single record: a quote character opens a quoted field only at field start, a
doubled quote inside a quoted field is a literal quote, the delimiter ends a
field only outside quotes.  `cur` is the current field (reversed), `acc` the
finished fields (reversed). -/
def parseFieldsAux (delim quote : Char) : List Char → Bool → List Char → List String → List String
  | [], _, cur, acc => (String.mk cur.reverse :: acc).reverse
  | c :: c2 :: cs2, true, cur, acc =>
      if c = quote then
        if c2 = quote then parseFieldsAux delim quote cs2 true (quote :: cur) acc
        else parseFieldsAux delim quote (c2 :: cs2) false cur acc
      else parseFieldsAux delim quote (c2 :: cs2) true (c :: cur) acc
  | [c], true, cur, acc =>
      if c = quote then parseFieldsAux delim quote [] false cur acc
      else parseFieldsAux delim quote [] true (c :: cur) acc
  | c :: cs, false, cur, acc =>
      if c = delim then parseFieldsAux delim quote cs false [] (String.mk cur.reverse :: acc)
      else if c = quote ∧ cur = [] then parseFieldsAux delim quote cs true cur acc
      else parseFieldsAux delim quote cs false (c :: cur) acc

/-- Split one data line into fields under a dialect. -/
def parseFields (d : PyDialect) (line : String) : List String :=
  parseFieldsAux d.delimiter d.quotechar line.data false [] []

/-- `DictReader`'s binding of parsed values to `fieldnames`, positional and in
schema order; missing trailing values get the default `restval`, which is
`None`.  (Surplus values beyond the schema are collected by `DictReader`
under the key `None`; no key of that kind is ever read by the program and it
has no `String` representation, so it is not modelled.) -/
def dictBind : List String → List String → List (String × Option String)
  | [], _ => []
  | f :: fs, [] => (f, none) :: dictBind fs []
  | f :: fs, v :: vs => (f, some v) :: dictBind fs vs

/-- `_open_csv` (lines 113–117): the records `csv.DictReader` yields over
`find_transaction_lines(file)` with the sniffed dialect and the given
positional field names. -/
def _open_csv (sniffed : PyDialect) (lines : List String) (field_names : List String) :
    Except PyError (List (List (String × Option String))) :=
  (find_transaction_lines lines).map fun rows =>
    rows.map fun r => dictBind field_names (parseFields sniffed r)

/-! ## The entry point (`main`, lines 257–280) -/

/-- Python's `args.output_file or default`: `or` takes the default when the
option is absent **or** the empty string (falsy). -/
def pyOrDefault (arg : Option String) (dflt : String) : String :=
  match arg with
  | none => dflt
  | some s => if s = "" then dflt else s

/-- What one run of `main` does, observably: which converter ran and the
output path it wrote to (`converted`), the message printed to `stderr`
(`errorOutput`), and the process exit status. -/
structure MainResult where
  converted : Option (CsvFileTypes × String)
  errorOutput : Option String
  exitCode : Nat
  deriving DecidableEq, Repr

/-- `main` (lines 257–280), given the decoded first line of the input file
(what `detect_csv_format` reads from `args.filename`) and the optional
`--output-file` argument.  Each recognised format dispatches to its converter
with `args.output_file or <per-format default>`; the `UNKNOWN` branch prints
to `stderr` and converts nothing.  `main` returns `None` on every branch and
the script ends by falling off `main`, so the interpreter exits with status 0
on every non-raising path, the `UNKNOWN` branch included (no `sys.exit` call
exists in the source).  The debug prints (gated by `--debug`) and
conversion-time exceptions, which would propagate out of `main`, are outside
this model; the claims below concern only the dispatch and the `UNKNOWN`
path. -/
def main (firstLine : String) (outputFileArg : Option String) : MainResult :=
  match detect_csv_format firstLine with
  | CsvFileTypes.OLD_VISA =>
      ⟨some (CsvFileTypes.OLD_VISA, pyOrDefault outputFileArg "visaHomebank.csv"), none, 0⟩
  | CsvFileTypes.CASH =>
      ⟨some (CsvFileTypes.CASH, pyOrDefault outputFileArg "cashHomebank.csv"), none, 0⟩
  | CsvFileTypes.GIRO =>
      ⟨some (CsvFileTypes.GIRO, pyOrDefault outputFileArg "giroHomebank.csv"), none, 0⟩
  | CsvFileTypes.NEW_VISA =>
      ⟨some (CsvFileTypes.NEW_VISA, pyOrDefault outputFileArg "visaHomebank.csv"), none, 0⟩
  | CsvFileTypes.UNKNOWN =>
      ⟨none, some "Could not detect CSV file type. Are you sure this is a legitimate file?", 0⟩

/-! ## Helper lemmas -/

/-- The first element surviving `dropWhile` fails the predicate. -/
theorem dropWhile_head_false {q : Char → Bool} :
    ∀ {l : List Char} {a : Char} {t : List Char},
      l.dropWhile q = a :: t → q a = false := by
  intro l
  induction l with
  | nil => intro a t h; cases h
  | cons x xs ih =>
      intro a t h
      rw [List.dropWhile_cons] at h
      split at h
      · exact ih h
      · next hx =>
          injection h with h1 h2
          subst h1
          simpa using hx

/-- `dropWhile` is idempotent. -/
theorem dropWhile_dropWhile {q : Char → Bool} (l : List Char) :
    (l.dropWhile q).dropWhile q = l.dropWhile q := by
  induction l with
  | nil => rfl
  | cons a t ih => by_cases h : q a <;> simp [List.dropWhile_cons, h, ih]

/-! ## C1 — the format classifier -/

/-- C1: `detect_csv_format` compares the (decoded) first line against the four
literal signatures by prefix matching in the fixed priority order OLD_VISA
(`"Kreditkarte:"`), CASH (`"Kontonummer:"`), GIRO (`"Girokonto"`), NEW_VISA
(`"Karte"`); the first match determines the result, no match yields UNKNOWN,
and classification is total: each of the five outcomes holds exactly under
the stated condition. -/
theorem detect_csv_format_priority_cascade (header : String) :
    (detect_csv_format header = CsvFileTypes.OLD_VISA ↔
      pyStartsWith header "\"Kreditkarte:\"" = true) ∧
    (detect_csv_format header = CsvFileTypes.CASH ↔
      (pyStartsWith header "\"Kreditkarte:\"" = false ∧
       pyStartsWith header "\"Kontonummer:\"" = true)) ∧
    (detect_csv_format header = CsvFileTypes.GIRO ↔
      (pyStartsWith header "\"Kreditkarte:\"" = false ∧
       pyStartsWith header "\"Kontonummer:\"" = false ∧
       pyStartsWith header "\"Girokonto\"" = true)) ∧
    (detect_csv_format header = CsvFileTypes.NEW_VISA ↔
      (pyStartsWith header "\"Kreditkarte:\"" = false ∧
       pyStartsWith header "\"Kontonummer:\"" = false ∧
       pyStartsWith header "\"Girokonto\"" = false ∧
       pyStartsWith header "\"Karte\"" = true)) ∧
    (detect_csv_format header = CsvFileTypes.UNKNOWN ↔
      (pyStartsWith header "\"Kreditkarte:\"" = false ∧
       pyStartsWith header "\"Kontonummer:\"" = false ∧
       pyStartsWith header "\"Girokonto\"" = false ∧
       pyStartsWith header "\"Karte\"" = false)) := by
  cases h1 : pyStartsWith header "\"Kreditkarte:\"" <;>
    cases h2 : pyStartsWith header "\"Kontonummer:\"" <;>
      cases h3 : pyStartsWith header "\"Girokonto\"" <;>
        cases h4 : pyStartsWith header "\"Karte\"" <;>
          simp [detect_csv_format, h1, h2, h3, h4]

/-! ## C2 — the transaction region extractor, success case -/

/-- C2: on a file made of preamble lines (none containing both `"Betrag"` and
`"Wertstellung"`), the first line containing both markers, and the data lines
after it, `find_transaction_lines` returns exactly the data lines, in order —
the header line excluded. -/
theorem find_transaction_lines_after_header
    (pre : List String) (header : String) (data : List String)
    (hpre : ∀ l ∈ pre, hasHeaderMarks l = false)
    (hheader : hasHeaderMarks header = true) :
    find_transaction_lines (pre ++ header :: data) = Except.ok data := by
  induction pre with
  | nil => simp [find_transaction_lines, hheader]
  | cons p ps ih =>
      have hp : hasHeaderMarks p = false := hpre p (by simp)
      have hrest : ∀ l ∈ ps, hasHeaderMarks l = false :=
        fun l hl => hpre l (by simp [hl])
      simpa [find_transaction_lines, hp] using ih hrest

/-- C2 witness: a concrete file with two preamble lines, a header line and
two data lines yields exactly the two data lines. -/
theorem find_transaction_lines_after_header_witness :
    find_transaction_lines
      ["\"Girokonto\" \"DE1234\"", "", "\"Buchungsdatum\";\"Wertstellung\";\"Betrag\"",
       "\"05.04.23\";\"05.04.23\";\"-15,00 €\"", "\"06.04.23\";\"06.04.23\";\"20,00 €\""] =
      Except.ok
        ["\"05.04.23\";\"05.04.23\";\"-15,00 €\"", "\"06.04.23\";\"06.04.23\";\"20,00 €\""] :=
  find_transaction_lines_after_header
    ["\"Girokonto\" \"DE1234\"", ""]
    "\"Buchungsdatum\";\"Wertstellung\";\"Betrag\""
    ["\"05.04.23\";\"05.04.23\";\"-15,00 €\"", "\"06.04.23\";\"06.04.23\";\"20,00 €\""]
    (by decide) (by decide)

/-! ## C6 — the extractor with no header line -/

/-- C6 counterexample: on a file with no header-signature line the extractor
raises the builtin `ValueError` of line 232, not an `InvalidInputException`
(`"no header found"` or otherwise) — the `InvalidInputException` class of
lines 19–23 is never raised. -/
theorem find_transaction_lines_no_header_not_invalid_input :
    find_transaction_lines ["\"Depot:\",\"1234\"", "some;data;rows"] =
      Except.error (PyError.valueError "Can\x27t convert CSV file without header line") ∧
    errIsInvalidInput
      (find_transaction_lines ["\"Depot:\",\"1234\"", "some;data;rows"]) = false := by
  exact ⟨rfl, rfl⟩

/-- C6 amended: when no line contains both `"Betrag"` and `"Wertstellung"`,
`find_transaction_lines` returns no lines and raises the fatal builtin
`ValueError` ("Can't convert CSV file without header line"); no partial
conversion is attempted. -/
theorem find_transaction_lines_no_header_raises
    (lines : List String) (h : ∀ l ∈ lines, hasHeaderMarks l = false) :
    find_transaction_lines lines =
      Except.error (PyError.valueError "Can\x27t convert CSV file without header line") := by
  induction lines with
  | nil => rfl
  | cons l ls ih =>
      have hl : hasHeaderMarks l = false := h l (by simp)
      simpa [find_transaction_lines, hl] using ih (fun x hx => h x (by simp [hx]))

/-- C6 witness: the amended statement applied to a concrete headerless
file. -/
theorem find_transaction_lines_no_header_raises_witness :
    find_transaction_lines ["\"Kontoauszug\"", "nur Text"] =
      Except.error (PyError.valueError "Can\x27t convert CSV file without header line") :=
  find_transaction_lines_no_header_raises ["\"Kontoauszug\"", "nur Text"] (by decide)

/-! ## C3 — shape of every written output row -/

/-- A written Homebank row in good shape: exactly the eight field names of
`homebank_field_names`, in order, with empty `info`, `category` and `tags`
values. -/
def homebankRowOk (out : List (String × String)) : Prop :=
  out.map Prod.fst = homebank_field_names ∧
  out.length = 8 ∧
  ∀ p ∈ out, (p.1 = "info" ∨ p.1 = "category" ∨ p.1 = "tags") → p.2 = ""

/-- Any row of the shape every projector writes is in good shape. -/
theorem homebankRowOk_mk (d paymode payee memo amount : String) :
    homebankRowOk
      [("date", d), ("paymode", paymode), ("info", ""), ("payee", payee),
       ("memo", memo), ("amount", amount), ("category", ""), ("tags", "")] := by
  refine ⟨by simp [homebank_field_names], by simp, ?_⟩
  intro p hp hcond
  simp only [List.mem_cons, List.not_mem_nil, or_false] at hp
  rcases hp with rfl | rfl | rfl | rfl | rfl | rfl | rfl | rfl <;> simp_all

/-- C3: every row any of the four projectors writes has exactly eight fields
in the order `date, paymode, info, payee, memo, amount, category, tags`, and
its `info`, `category` and `tags` values are empty, whatever the source
format and record. -/
theorem projectors_write_homebank_rows
    (rc : CashRow) (rov : OldVisaRow) (rnv : NewVisaRow) (rg : GiroRow)
    (oc oov onv og : List (String × String))
    (hc : convert_cash_row rc = Except.ok oc)
    (hov : convert_old_visa_row rov = Except.ok oov)
    (hnv : convert_new_visa_row rnv = Except.ok onv)
    (hg : convert_giro_row rg = Except.ok og) :
    homebankRowOk oc ∧ homebankRowOk oov ∧ homebankRowOk onv ∧ homebankRowOk og := by
  refine ⟨?_, ?_, ?_, ?_⟩
  · cases hd : convert_date rc.buchungstag with
    | error e => simp [convert_cash_row, hd, Except.map] at hc
    | ok d =>
        simp only [convert_cash_row, hd, Except.map] at hc
        injection hc with hc
        rw [← hc]; exact homebankRowOk_mk ..
  · cases hd : convert_date rov.wertstellung with
    | error e => simp [convert_old_visa_row, hd, Except.map] at hov
    | ok d =>
        simp only [convert_old_visa_row, hd, Except.map] at hov
        injection hov with hov
        rw [← hov]; exact homebankRowOk_mk ..
  · cases hd : convert_short_date rnv.wertstellung with
    | error e => simp [convert_new_visa_row, hd, Except.map] at hnv
    | ok d =>
        simp only [convert_new_visa_row, hd, Except.map] at hnv
        injection hnv with hnv
        rw [← hnv]; exact homebankRowOk_mk ..
  · cases hd : convert_short_date rg.buchungsdatum with
    | error e => simp [convert_giro_row, hd, Except.map] at hg
    | ok d =>
        simp only [convert_giro_row, hd, Except.map] at hg
        injection hg with hg
        rw [← hg]; exact homebankRowOk_mk ..

/-- C3 witness: one concrete record per format, each producing a row in good
shape (the CASH record is the end-to-end scenario of the design document). -/
theorem projectors_write_homebank_rows_witness :
    homebankRowOk
      [("date", "01-03-2023"), ("paymode", "8"), ("info", ""), ("payee", "ACME GmbH"),
       ("memo", "Invoice 123"), ("amount", "-42,50"), ("category", ""), ("tags", "")] ∧
    homebankRowOk
      [("date", "02-03-2023"), ("paymode", "1"), ("info", ""), ("payee", ""),
       ("memo", "AMAZON EU"), ("amount", "-9,99"), ("category", ""), ("tags", "")] ∧
    homebankRowOk
      [("date", "05-04-2023"), ("paymode", "1"), ("info", ""), ("payee", ""),
       ("memo", "Supermarkt"), ("amount", "-15,00"), ("category", ""), ("tags", "")] ∧
    homebankRowOk
      [("date", "05-04-2023"), ("paymode", "8"), ("info", ""),
       ("payee", "Jane Doe DE89370400440532013000"), ("memo", "Miete"),
       ("amount", "-42,50"), ("category", ""), ("tags", "")] :=
  projectors_write_homebank_rows
    ⟨"01.03.2023", "02.03.2023", "Lastschrift", "ACME GmbH", "Invoice 123",
     "DE00", "BANKXXX", "-42,50", "", "", ""⟩
    ⟨"Ja", "02.03.2023", "01.03.2023", "AMAZON EU", "-9,99", ""⟩
    ⟨"04.04.23", "05.04.23", "Gebucht", "Supermarkt", "Lastschrift", "-15,00 €", ""⟩
    ⟨"05.04.23", "05.04.23", "Gebucht", "John Doe", "Jane Doe", "Miete", "Ausgang",
     "DE89370400440532013000", "-42,50 €", "", "", ""⟩
    _ _ _ _ rfl rfl rfl rfl

/-! ## C8 — the UNKNOWN path of `main` -/

/-- C8 counterexample: on a file whose first line is `"Depot:","1234"`,
`main` reports the error and converts nothing — but the process exit status
is 0, not non-zero: `main` returns `None` on the UNKNOWN branch and the
script never calls `sys.exit`, so the interpreter terminates
successfully. -/
theorem main_unknown_exit_code_zero :
    (main "\"Depot:\",\"1234\"" none).converted = none ∧
    (main "\"Depot:\",\"1234\"" none).errorOutput =
      some "Could not detect CSV file type. Are you sure this is a legitimate file?" ∧
    (main "\"Depot:\",\"1234\"" none).exitCode = 0 :=
  ⟨rfl, rfl, rfl⟩

/-- C8 amended: for every input file classified UNKNOWN, the pipeline reports
an error to stderr, performs no conversion and writes no output file; the
process exit status, however, is zero. -/
theorem main_unknown_reports_error_and_converts_nothing
    (firstLine : String) (outputFileArg : Option String)
    (h : detect_csv_format firstLine = CsvFileTypes.UNKNOWN) :
    (main firstLine outputFileArg).converted = none ∧
    (main firstLine outputFileArg).errorOutput =
      some "Could not detect CSV file type. Are you sure this is a legitimate file?" ∧
    (main firstLine outputFileArg).exitCode = 0 := by
  unfold main
  rw [h]
  exact ⟨rfl, rfl, rfl⟩

/-- C8 witness: the amended statement applied to a concrete unknown-format
first line and an explicit output-file argument. -/
theorem main_unknown_reports_error_witness :
    (main "\"Sparbuch:\";\"99\"" (some "out.csv")).converted = none ∧
    (main "\"Sparbuch:\";\"99\"" (some "out.csv")).errorOutput =
      some "Could not detect CSV file type. Are you sure this is a legitimate file?" ∧
    (main "\"Sparbuch:\";\"99\"" (some "out.csv")).exitCode = 0 :=
  main_unknown_reports_error_and_converts_nothing "\"Sparbuch:\";\"99\"" (some "out.csv") rfl

/-! ## C4 and C10 — the date transforms on well-formed inputs -/

/-- Digit characters are digits. -/
theorem digitOf_isDigit : ∀ n < 10, (digitOf n).isDigit = true := by decide

/-- `digitVal` inverts `digitOf` on single digits. -/
theorem digitVal_digitOf : ∀ n < 10, digitVal (digitOf n) = n := by decide

/-- Digit characters are not the dot separator. -/
theorem digitOf_ne_dot : ∀ n < 10, digitOf n ≠ '.' := by decide

/-- A two-digit rendering contains no dot. -/
theorem pad2c_no_dot (n : Nat) (h : n < 100) : ∀ c ∈ pad2c n, c ≠ '.' := by
  intro c hc
  simp only [pad2c, List.mem_cons, List.not_mem_nil, or_false] at hc
  rcases hc with rfl | rfl
  · exact digitOf_ne_dot (n / 10) (by omega)
  · exact digitOf_ne_dot (n % 10) (by omega)

/-- A four-digit rendering contains no dot. -/
theorem pad4c_no_dot (n : Nat) (h : n < 10000) : ∀ c ∈ pad4c n, c ≠ '.' := by
  intro c hc
  simp only [pad4c, List.mem_cons, List.not_mem_nil, or_false] at hc
  rcases hc with rfl | rfl | rfl | rfl
  · exact digitOf_ne_dot (n / 1000) (by omega)
  · exact digitOf_ne_dot (n / 100 % 10) (by omega)
  · exact digitOf_ne_dot (n / 10 % 10) (by omega)
  · exact digitOf_ne_dot (n % 10) (by omega)

/-- Splitting a dot-free list at dots yields the list itself. -/
theorem splitDots_no_dot (l : List Char) (h : ∀ c ∈ l, c ≠ '.') :
    splitDots l = [l] := by
  induction l with
  | nil => rfl
  | cons c cs ih =>
      have hc : c ≠ '.' := h c (by simp)
      have ihh := ih (fun x hx => h x (by simp [hx]))
      simp [splitDots, hc, ihh]

/-- Splitting peels off a leading dot-free part at its terminating dot. -/
theorem splitDots_append (l r : List Char) (h : ∀ c ∈ l, c ≠ '.') :
    splitDots (l ++ '.' :: r) = l :: splitDots r := by
  induction l with
  | nil => simp [splitDots]
  | cons c cs ih =>
      have hc : c ≠ '.' := h c (by simp)
      have ihh := ih (fun x hx => h x (by simp [hx]))
      simp [splitDots, hc, ihh]

/-- The day regex accepts the two-digit rendering of any day 1–31 and
recovers its value. -/
theorem parseDayPart_pad2c (n : Nat) (h1 : 1 ≤ n) (h2 : n ≤ 31) :
    parseDayPart (pad2c n) = some n := by
  have hd1 : n / 10 < 10 := by omega
  have hd2 : n % 10 < 10 := by omega
  have hv : 10 * (n / 10) + n % 10 = n := by omega
  simp [pad2c, parseDayPart, digitOf_isDigit _ hd1, digitOf_isDigit _ hd2,
        digitVal_digitOf _ hd1, digitVal_digitOf _ hd2, hv, h1, h2]

/-- The month regex accepts the two-digit rendering of any month 1–12 and
recovers its value. -/
theorem parseMonthPart_pad2c (n : Nat) (h1 : 1 ≤ n) (h2 : n ≤ 12) :
    parseMonthPart (pad2c n) = some n := by
  have hd1 : n / 10 < 10 := by omega
  have hd2 : n % 10 < 10 := by omega
  have hv : 10 * (n / 10) + n % 10 = n := by omega
  simp [pad2c, parseMonthPart, digitOf_isDigit _ hd1, digitOf_isDigit _ hd2,
        digitVal_digitOf _ hd1, digitVal_digitOf _ hd2, hv, h1, h2]

/-- The `%Y` regex accepts the four-digit rendering of any year ≤ 9999 and
recovers its value. -/
theorem parseYear4Part_pad4c (n : Nat) (h : n ≤ 9999) :
    parseYear4Part (pad4c n) = some n := by
  have a1 : n / 1000 < 10 := by omega
  have a2 : n / 100 % 10 < 10 := by omega
  have a3 : n / 10 % 10 < 10 := by omega
  have a4 : n % 10 < 10 := by omega
  have hv : 1000 * (n / 1000) + 100 * (n / 100 % 10) + 10 * (n / 10 % 10) + n % 10 = n := by
    omega
  simp [pad4c, parseYear4Part, digitOf_isDigit _ a1, digitOf_isDigit _ a2,
        digitOf_isDigit _ a3, digitOf_isDigit _ a4, digitVal_digitOf _ a1,
        digitVal_digitOf _ a2, digitVal_digitOf _ a3, digitVal_digitOf _ a4, hv]

/-- The `%y` regex accepts the two-digit rendering of any year ≤ 99 and
recovers its value. -/
theorem parseYear2Part_pad2c (n : Nat) (h : n ≤ 99) :
    parseYear2Part (pad2c n) = some n := by
  have hd1 : n / 10 < 10 := by omega
  have hd2 : n % 10 < 10 := by omega
  have hv : 10 * (n / 10) + n % 10 = n := by omega
  simp [pad2c, parseYear2Part, digitOf_isDigit _ hd1, digitOf_isDigit _ hd2,
        digitVal_digitOf _ hd1, digitVal_digitOf _ hd2, hv]

/-- No month has more than 31 days. -/
theorem daysInMonth_le (y m : Nat) : daysInMonth y m ≤ 31 := by
  unfold daysInMonth
  split_ifs <;> omega

/-- Expanded two-digit years are ≥ 1900 ≥ 1. -/
theorem expandYear_pos (y : Nat) : 1 ≤ expandYear y := by
  unfold expandYear
  split <;> omega

/-- Expanded two-digit years are ≤ 2068 ≤ 9999. -/
theorem expandYear_le (y : Nat) (h : y ≤ 99) : expandYear y ≤ 9999 := by
  unfold expandYear
  split <;> omega

/-- Parsing a well-formed `dd.mm.yyyy` rendering recovers its components. -/
theorem parseDotDate_parts (d m y : Nat)
    (hd1 : 1 ≤ d) (hd2 : d ≤ 31) (hm1 : 1 ≤ m) (hm2 : m ≤ 12) (hy : y ≤ 9999) :
    parseDotDate (pad2c d ++ '.' :: (pad2c m ++ '.' :: pad4c y)) = some (d, m, y) := by
  have hsplit : splitDots (pad2c d ++ '.' :: (pad2c m ++ '.' :: pad4c y)) =
      [pad2c d, pad2c m, pad4c y] := by
    rw [splitDots_append _ _ (pad2c_no_dot d (by omega)),
        splitDots_append _ _ (pad2c_no_dot m (by omega)),
        splitDots_no_dot _ (pad4c_no_dot y (by omega))]
  simp [parseDotDate, hsplit, parseDayPart_pad2c d hd1 hd2,
        parseMonthPart_pad2c m hm1 hm2, parseYear4Part_pad4c y hy]

/-- Parsing a well-formed `dd.mm.yy` rendering recovers its components, with
the century rule applied to the year. -/
theorem parseDotDateShort_parts (d m y : Nat)
    (hd1 : 1 ≤ d) (hd2 : d ≤ 31) (hm1 : 1 ≤ m) (hm2 : m ≤ 12) (hy : y ≤ 99) :
    parseDotDateShort (pad2c d ++ '.' :: (pad2c m ++ '.' :: pad2c y)) =
      some (d, m, expandYear y) := by
  have hsplit : splitDots (pad2c d ++ '.' :: (pad2c m ++ '.' :: pad2c y)) =
      [pad2c d, pad2c m, pad2c y] := by
    rw [splitDots_append _ _ (pad2c_no_dot d (by omega)),
        splitDots_append _ _ (pad2c_no_dot m (by omega)),
        splitDots_no_dot _ (pad2c_no_dot y (by omega))]
  simp [parseDotDateShort, hsplit, parseDayPart_pad2c d hd1 hd2,
        parseMonthPart_pad2c m hm1 hm2, parseYear2Part_pad2c y hy]

/-- C4: for every valid date in `dd.mm.yyyy` form (day within the month,
month 1–12, year 1–9999 — exactly the dates `datetime.strptime` accepts),
`convert_date` produces the `dd-mm-yyyy` string with identical day, month and
year values. -/
theorem convert_date_round_trip (d m y : Nat)
    (hm1 : 1 ≤ m) (hm2 : m ≤ 12) (hy1 : 1 ≤ y) (hy2 : y ≤ 9999)
    (hd1 : 1 ≤ d) (hd2 : d ≤ daysInMonth y m) :
    convert_date (dateStrDMY d m y '.') = Except.ok (dateStrDMY d m y '-') := by
  have h31 : d ≤ 31 := le_trans hd2 (daysInMonth_le y m)
  have hny : y ≠ 0 := by omega
  have hnd : ¬daysInMonth y m < d := by omega
  simp [convert_date, dateStrDMY, parseDotDate_parts d m y hd1 h31 hm1 hm2 hy2,
        formatCheckedDate, hny, hnd]

/-- C4 witness: `"05.04.2023"` converts to `"05-04-2023"`. -/
theorem convert_date_round_trip_witness :
    convert_date "05.04.2023" = Except.ok "05-04-2023" := by
  have h := convert_date_round_trip 5 4 2023 (by decide) (by decide) (by decide)
    (by decide) (by decide) (by decide)
  have e1 : dateStrDMY 5 4 2023 '.' = "05.04.2023" := by decide
  have e2 : dateStrDMY 5 4 2023 '-' = "05-04-2023" := by decide
  rw [e1, e2] at h
  exact h

/-- C10: for every valid date in `dd.mm.yy` form, `convert_short_date`
expands the two-digit year by Python's `%y` century window — `2000 + yy` for
`yy ≤ 68`, `1900 + yy` for `69 ≤ yy ≤ 99` — and renders `dd-mm-yyyy` with
the expanded year. -/
theorem convert_short_date_century (d m y : Nat)
    (hy : y ≤ 99) (hm1 : 1 ≤ m) (hm2 : m ≤ 12) (hd1 : 1 ≤ d)
    (hd2 : d ≤ daysInMonth (expandYear y) m) :
    convert_short_date (dateStrShort d m y) =
      Except.ok (dateStrDMY d m (expandYear y) '-') := by
  have h31 : d ≤ 31 := le_trans hd2 (daysInMonth_le (expandYear y) m)
  have hny : expandYear y ≠ 0 := by
    have := expandYear_pos y
    omega
  have hnd : ¬daysInMonth (expandYear y) m < d := by omega
  simp [convert_short_date, dateStrShort, dateStrDMY,
        parseDotDateShort_parts d m y hd1 h31 hm1 hm2 hy,
        formatCheckedDate, hny, hnd]

/-- C10 witness: `"05.04.23"` converts to `"05-04-2023"` (window 0–68) and
`"01.01.70"` to `"01-01-1970"` (window 69–99). -/
theorem convert_short_date_century_witness :
    convert_short_date "05.04.23" = Except.ok "05-04-2023" ∧
    convert_short_date "01.01.70" = Except.ok "01-01-1970" := by
  constructor
  · have h := convert_short_date_century 5 4 23 (by decide) (by decide) (by decide)
      (by decide) (by decide)
    have e1 : dateStrShort 5 4 23 = "05.04.23" := by decide
    have e2 : dateStrDMY 5 4 (expandYear 23) '-' = "05-04-2023" := by decide
    rw [e1, e2] at h
    exact h
  · have h := convert_short_date_century 1 1 70 (by decide) (by decide) (by decide)
      (by decide) (by decide)
    have e1 : dateStrShort 1 1 70 = "01.01.70" := by decide
    have e2 : dateStrDMY 1 1 (expandYear 70) '-' = "01-01-1970" := by decide
    rw [e1, e2] at h
    exact h

/-! ## C5 — currency stripping -/

/-- The characters the claim says stripping never removes: digits, `.`, `,`
and `-`. -/
def keepChar (c : Char) : Bool := c.isDigit || c = '.' || c = ',' || c = '-'

/-- Everything that is neither the Euro sign nor whitespace — the characters
stripping may never touch. -/
def keptChar (c : Char) : Bool := !(c = '€' || pyIsSpace c)

/-- Stripping returns a sublist of its input. -/
theorem pyStrip_sublist (l : List Char) : List.Sublist (pyStrip l) l := by
  unfold pyStrip
  have h1 : List.Sublist ((l.dropWhile pyIsSpace).reverse.dropWhile pyIsSpace)
      (l.dropWhile pyIsSpace).reverse := List.dropWhile_sublist _
  have h2 : List.Sublist (((l.dropWhile pyIsSpace).reverse.dropWhile pyIsSpace).reverse)
      (l.dropWhile pyIsSpace) := by
    have := h1.reverse
    simpa using this
  exact h2.trans (List.dropWhile_sublist _)

/-- Stripping is idempotent. -/
theorem pyStrip_idem (l : List Char) : pyStrip (pyStrip l) = pyStrip l := by
  unfold pyStrip
  generalize hA : l.dropWhile pyIsSpace = A
  generalize hB : A.reverse.dropWhile pyIsSpace = B
  have h1 : B.reverse.dropWhile pyIsSpace = B.reverse := by
    cases hBR : B.reverse with
    | nil => rfl
    | cons a t =>
        have hsplit : A.reverse.takeWhile pyIsSpace ++ B = A.reverse := by
          rw [← hB]
          exact List.takeWhile_append_dropWhile _ _
        have hA2 : B.reverse ++ (A.reverse.takeWhile pyIsSpace).reverse = A := by
          have := congrArg List.reverse hsplit
          simpa [List.reverse_append] using this
        have hhead : A.head? = some a := by
          rw [← hA2, hBR]
          rfl
        have ha : pyIsSpace a = false := by
          cases hd : A with
          | nil =>
              rw [hd] at hhead
              cases hhead
          | cons x t2 =>
              have hx : x = a := by
                rw [hd] at hhead
                injection hhead
              refine dropWhile_head_false (l := l) (t := t2) ?_
              rw [hA, hd, hx]
        rw [List.dropWhile_cons, ha]
        simp
  rw [h1, List.reverse_reverse, ← hB, dropWhile_dropWhile]

/-- Filtering for characters a predicate keeps commutes with dropping a
prefix of characters it rejects. -/
theorem filter_dropWhile (keep q : Char → Bool)
    (h : ∀ c, q c = true → keep c = false) (l : List Char) :
    (l.dropWhile q).filter keep = l.filter keep := by
  have hsplit : l.filter keep = (l.takeWhile q).filter keep ++ (l.dropWhile q).filter keep := by
    rw [← List.filter_append, List.takeWhile_append_dropWhile]
  have hnil : (l.takeWhile q).filter keep = [] := by
    rw [List.filter_eq_nil_iff]
    intro a ha
    simp [h a (List.mem_takeWhile_imp ha)]
  rw [hsplit, hnil, List.nil_append]

/-- Stripping preserves every character of a whitespace-free class. -/
theorem filter_pyStrip (keep : Char → Bool)
    (h : ∀ c, pyIsSpace c = true → keep c = false) (l : List Char) :
    (pyStrip l).filter keep = l.filter keep := by
  simp [pyStrip, List.filter_reverse, filter_dropWhile keep pyIsSpace h]

/-- `strip_currency` preserves every character class disjoint from whitespace
and the Euro sign. -/
theorem filter_strip_currency (keep : Char → Bool)
    (hsp : ∀ c, pyIsSpace c = true → keep c = false) (heu : keep '€' = false)
    (s : String) :
    (strip_currency s).data.filter keep = s.data.filter keep := by
  show (pyStrip (s.data.filter fun c => c ≠ '€')).filter keep = s.data.filter keep
  rw [filter_pyStrip keep hsp, List.filter_filter]
  refine List.filter_congr ?_
  intro x hx
  by_cases hc : x = '€'
  · subst hc
    simp [heu]
  · simp [hc]

/-- C5: `strip_currency` is idempotent, and for every input it never removes
a digit, `.`, `,` or `-` (their subsequence is untouched); more precisely it
only removes characters — never adds or reorders them — and the only
characters it removes are the Euro sign and whitespace. -/
theorem strip_currency_idem_and_preserves (s : String) :
    strip_currency (strip_currency s) = strip_currency s ∧
    (strip_currency s).data.filter keepChar = s.data.filter keepChar ∧
    List.Sublist (strip_currency s).data s.data ∧
    (strip_currency s).data.filter keptChar = s.data.filter keptChar := by
  refine ⟨?_, ?_, ?_, ?_⟩
  · have hfix : (pyStrip (s.data.filter fun c => c ≠ '€')).filter (fun c => c ≠ '€')
        = pyStrip (s.data.filter fun c => c ≠ '€') := by
      rw [List.filter_eq_self]
      intro a ha
      have hmem : a ∈ s.data.filter (fun c => c ≠ '€') := (pyStrip_sublist _).subset ha
      exact (List.mem_filter.mp hmem).2
    show String.mk
        (pyStrip ((pyStrip (s.data.filter fun c => c ≠ '€')).filter fun c => c ≠ '€')) = _
    rw [hfix, pyStrip_idem]
    rfl
  · refine filter_strip_currency keepChar ?_ (by rfl) s
    intro c hc
    have hc2 : c = ' ' ∨ c = '\t' ∨ c = '\n' ∨ c = '\x0d' ∨ c = '\x0b' ∨ c = '\x0c' := by
      simpa [pyIsSpace, or_assoc] using hc
    rcases hc2 with rfl | rfl | rfl | rfl | rfl | rfl <;> rfl
  · exact ((pyStrip_sublist _).trans (List.filter_sublist _))
  · refine filter_strip_currency keptChar ?_ (by rfl) s
    intro c hc
    simp [keptChar, hc]

/-! ## C7 — failures of the date transforms -/

/-- Every error `convert_date` produces is a builtin `ValueError`. -/
theorem convert_date_error_shape (s : String) (e : PyError)
    (h : convert_date s = Except.error e) : ∃ msg, e = PyError.valueError msg := by
  unfold convert_date at h
  cases hp : parseDotDate s.data with
  | none =>
      rw [hp] at h
      simp only [Except.error.injEq] at h
      exact ⟨_, h.symm⟩
  | some v =>
      obtain ⟨d, m, y⟩ := v
      rw [hp] at h
      simp only at h
      unfold formatCheckedDate at h
      split_ifs at h <;> simp only [Except.error.injEq, reduceCtorEq] at h
      · exact ⟨_, h.symm⟩
      · exact ⟨_, h.symm⟩

/-- Every error `convert_short_date` produces is a builtin `ValueError`. -/
theorem convert_short_date_error_shape (s : String) (e : PyError)
    (h : convert_short_date s = Except.error e) : ∃ msg, e = PyError.valueError msg := by
  unfold convert_short_date at h
  cases hp : parseDotDateShort s.data with
  | none =>
      rw [hp] at h
      simp only [Except.error.injEq] at h
      exact ⟨_, h.symm⟩
  | some v =>
      obtain ⟨d, m, y⟩ := v
      rw [hp] at h
      simp only at h
      unfold formatCheckedDate at h
      split_ifs at h <;> simp only [Except.error.injEq, reduceCtorEq] at h
      · exact ⟨_, h.symm⟩
      · exact ⟨_, h.symm⟩

/-- A failing CASH projection fails exactly on its date conversion. -/
theorem convert_cash_row_error_shape (r : CashRow) (e : PyError)
    (h : convert_cash_row r = Except.error e) :
    convert_date r.buchungstag = Except.error e := by
  unfold convert_cash_row at h
  cases hd : convert_date r.buchungstag with
  | error e2 =>
      rw [hd] at h
      simp only [Except.map, Except.error.injEq] at h
      rw [h]
  | ok d =>
      rw [hd] at h
      simp [Except.map] at h

/-- A file containing any bad-date CASH row makes the whole conversion abort
with a `ValueError`. -/
theorem convert_cash_rows_abort (rows : List CashRow)
    (h : ∃ r ∈ rows, ∃ e, convert_cash_row r = Except.error e) :
    ∃ msg, convert_cash_rows rows = Except.error (PyError.valueError msg) := by
  induction rows with
  | nil =>
      obtain ⟨r, hr, -⟩ := h
      exact absurd hr (List.not_mem_nil r)
  | cons r rs ih =>
      cases hr : convert_cash_row r with
      | error e =>
          obtain ⟨msg, rfl⟩ :=
            convert_date_error_shape _ _ (convert_cash_row_error_shape r e hr)
          refine ⟨msg, ?_⟩
          rw [convert_cash_rows, List.mapM_cons, hr]
          rfl
      | ok v =>
          obtain ⟨r2, hr2, e2, he2⟩ := h
          rcases List.mem_cons.mp hr2 with rfl | hmem
          · rw [hr] at he2
            cases he2
          · obtain ⟨msg, hm⟩ := ih ⟨r2, hmem, e2, he2⟩
            refine ⟨msg, ?_⟩
            rw [convert_cash_rows] at hm
            rw [convert_cash_rows, List.mapM_cons, hr]
            simp only [hm]
            rfl

/-- C7 counterexample: an unparseable date makes the transform raise the
builtin `ValueError` coming from `datetime.strptime` — not a
`ConversionError` of kind "bad date": no class named `ConversionError`
exists anywhere in the source. -/
theorem convert_date_failure_not_conversion_error :
    convert_date "2023-01-01" =
      Except.error
        (PyError.valueError "time data 2023-01-01 does not match format %d.%m.%Y") ∧
    errIsConversionError (convert_date "2023-01-01") = false :=
  ⟨rfl, rfl⟩

/-- C7 amended: every date-transform failure (for both `convert_date` and
`convert_short_date`) is a fatal builtin `ValueError`, and a single bad-date
row aborts the whole file's conversion — no row is silently skipped. -/
theorem date_failures_are_fatal_valueerrors :
    (∀ s e, convert_date s = Except.error e → ∃ msg, e = PyError.valueError msg) ∧
    (∀ s e, convert_short_date s = Except.error e → ∃ msg, e = PyError.valueError msg) ∧
    (∀ rows : List CashRow,
      (∃ r ∈ rows, ∃ e, convert_cash_row r = Except.error e) →
      ∃ msg, convert_cash_rows rows = Except.error (PyError.valueError msg)) :=
  ⟨convert_date_error_shape, convert_short_date_error_shape, convert_cash_rows_abort⟩

/-- C7 witness: the amended statement applied to a concrete unparseable date
string and to a concrete one-bad-row file. -/
theorem date_failures_are_fatal_valueerrors_witness :
    (∃ msg, (PyError.valueError "time data 31-12-2023 does not match format %d.%m.%Y") =
      PyError.valueError msg) ∧
    (∃ msg,
      convert_cash_rows [⟨"not a date", "", "", "", "", "", "", "", "", "", ""⟩] =
        Except.error (PyError.valueError msg)) := by
  constructor
  · exact date_failures_are_fatal_valueerrors.1 "31-12-2023" _ rfl
  · refine date_failures_are_fatal_valueerrors.2.2 _
      ⟨⟨"not a date", "", "", "", "", "", "", "", "", "", ""⟩, by simp, ?_⟩
    exact ⟨PyError.valueError "time data not a date does not match format %d.%m.%Y", rfl⟩

/-! ## C9 — the record parser's dialect and positional binding -/

/-- Every record `dictBind` produces lists exactly the schema names, in
order. -/
theorem dictBind_keys (fns vs : List String) :
    (dictBind fns vs).map Prod.fst = fns := by
  induction fns generalizing vs with
  | nil => rfl
  | cons f fs ih =>
      cases vs with
      | nil => simp [dictBind, ih]
      | cons v vs2 => simp [dictBind, ih]

/-- C9 counterexample: the reader's dialect is `csv.Sniffer().sniff(...)`
(line 115), not the fixed `;`/`"` dialect, and the parse genuinely depends on
it.  On a file whose first kibibyte is dominated by a comma/quote preamble —
the situation in which the stdlib sniffer picks the comma dialect — the data
row `a;b,c` is split at the comma, not at the semicolon, so the records
differ from the fixed-dialect parse that the claim asserts. -/
theorem open_csv_dialect_not_fixed :
    _open_csv ⟨',', '"'⟩ ["\"x\",\"y\"", "Betrag Wertstellung", "a;b,c"] ["f1", "f2"] =
      Except.ok [[("f1", some "a;b"), ("f2", some "c")]] ∧
    _open_csv dkbDialect ["\"x\",\"y\"", "Betrag Wertstellung", "a;b,c"] ["f1", "f2"] =
      Except.ok [[("f1", some "a"), ("f2", some "b,c")]] ∧
    _open_csv ⟨',', '"'⟩ ["\"x\",\"y\"", "Betrag Wertstellung", "a;b,c"] ["f1", "f2"] ≠
      _open_csv dkbDialect ["\"x\",\"y\"", "Betrag Wertstellung", "a;b,c"] ["f1", "f2"] := by
  refine ⟨rfl, rfl, ?_⟩
  intro h
  rw [show _open_csv ⟨',', '"'⟩ ["\"x\",\"y\"", "Betrag Wertstellung", "a;b,c"] ["f1", "f2"] =
        Except.ok [[("f1", some "a;b"), ("f2", some "c")]] from rfl,
      show _open_csv dkbDialect ["\"x\",\"y\"", "Betrag Wertstellung", "a;b,c"] ["f1", "f2"] =
        Except.ok [[("f1", some "a"), ("f2", some "b,c")]] from rfl] at h
  simp at h

/-- C9 amended: for every dialect the sniffer hands back, the reader parses
exactly the extracted data rows — one record per row — and binds the parsed
fields positionally, in column order, to the detected format's fixed ordered
field-name schema. -/
theorem open_csv_positional_binding (d : PyDialect) (lines fns rows : List String)
    (h : find_transaction_lines lines = Except.ok rows) :
    ∃ out, _open_csv d lines fns = Except.ok out ∧ out.length = rows.length ∧
      ∀ record ∈ out, record.map Prod.fst = fns := by
  refine ⟨rows.map (fun r => dictBind fns (parseFields d r)), ?_, by simp, ?_⟩
  · simp [_open_csv, h, Except.map]
  · intro record hrecord
    simp only [List.mem_map] at hrecord
    obtain ⟨r, hr, rfl⟩ := hrecord
    exact dictBind_keys fns (parseFields d r)

/-- C9 witness: the amended statement applied to a concrete file and
schema. -/
theorem open_csv_positional_binding_witness :
    ∃ out,
      _open_csv dkbDialect ["Betrag Wertstellung", "a;b"] ["f1", "f2"] = Except.ok out ∧
      out.length = (["a;b"] : List String).length ∧
      ∀ record ∈ out, record.map Prod.fst = ["f1", "f2"] :=
  open_csv_positional_binding dkbDialect ["Betrag Wertstellung", "a;b"] ["f1", "f2"]
    ["a;b"] rfl

end Dkb2Homebank
